import Mathlib

/-!
Verification of the dazai NLP service layer (`app/services` and the
style-transfer router) against its natural-language specification.

The Python services wrap calls to pretrained language models.  The shallow
embedding models each model invocation as an `Option`-valued oracle argument:
`some out` is a successful model pipeline producing `out`, `none` is a raised
exception anywhere on the model path (tokenizer load, model load, inference).
Everything around the oracle (validation, preprocessing-independent control
flow, fallbacks, post-processing) is translated directly from the source.
Python strings are modelled as `List Char`; floats produced by softmax are
modelled as `ℚ`; Python dicts built in a fixed key order are modelled as
association lists in that order.
-/

/-! ## Sentiment service (`app/services/sentiment_service.py`) -/

/-- `SentimentService.__init__`: `self.labels = ["negative", "neutral", "positive"]`. -/
def sentiment_labels : List String := ["negative", "neutral", "positive"]

/-- The `scores_dict` built in `analyze_sentiment` line 92: a dict keyed by
`self.labels` in order, hence insertion order negative, neutral, positive. -/
def sentiment_scores (n u p : ℚ) : List (String × ℚ) :=
  [("negative", n), ("neutral", u), ("positive", p)]

/-- `SentimentService._get_dominant_sentiment`: Python
`max(scores.items(), key=lambda x: x[1])`.  CPython `max` keeps the current
maximum and replaces it only on a strictly greater key, so the first maximal
item in iteration order wins; `max` of an empty iterable raises (`none`). -/
def get_dominant_sentiment (scores : List (String × ℚ)) : Option (String × ℚ) :=
  match scores with
  | [] => none
  | x :: rest => some (rest.foldl (fun acc y => if y.2 > acc.2 then y else acc) x)

/-- Result dict of `analyze_sentiment`. -/
structure SentimentResult where
  sentiment : String
  score : ℚ
  details : List (String × ℚ)
deriving DecidableEq, Repr

/-- `SentimentService.analyze_sentiment`: on the success path the oracle
yields the softmax scores `(negative, neutral, positive)` for the
(preprocessed, tokenized) text; any exception on that path (oracle `none`)
is caught and mapped to the hardcoded neutral result of lines 102-106, whose
`details` dict is written in order positive, neutral, negative. -/
def analyze_sentiment (oracle : Option (ℚ × ℚ × ℚ)) : SentimentResult :=
  match oracle with
  | some (n, u, p) =>
      match get_dominant_sentiment (sentiment_scores n u p) with
      | some (l, s) => ⟨l, s, sentiment_scores n u p⟩
      | none => ⟨"neutral", 1, [("positive", 0), ("neutral", 1), ("negative", 0)]⟩
  | none => ⟨"neutral", 1, [("positive", 0), ("neutral", 1), ("negative", 0)]⟩

/-- `SentimentService.get_emotion_keywords` tables (lines 153-168). -/
def positive_keywords : List (String × List String) :=
  [("joy", ["喜び", "嬉しい", "楽しい", "幸せ", "満足"]),
   ("excitement", ["興奮", "ワクワク", "熱狂", "感動", "驚き"]),
   ("gratitude", ["感謝", "ありがとう", "恩", "謝意", "御礼"])]

def negative_keywords : List (String × List String) :=
  [("anger", ["怒り", "憤り", "不満", "イライラ", "憎しみ"]),
   ("sadness", ["悲しみ", "悲しい", "寂しい", "憂鬱", "落ち込む"]),
   ("fear", ["恐怖", "不安", "心配", "怖い", "恐れ"])]

def neutral_keywords : List (String × List String) :=
  [("calm", ["冷静", "平静", "穏やか", "落ち着き", "安定"]),
   ("contemplative", ["思慮", "考察", "熟考", "内省", "検討"])]

/-- The `emotion_keywords` dict of `get_emotion_keywords`, insertion order
positive, negative, neutral. -/
def emotion_keywords_table : List (String × List (String × List String)) :=
  [("positive", positive_keywords), ("negative", negative_keywords),
   ("neutral", neutral_keywords)]

/-- `SentimentService.get_emotion_keywords`:
`emotion_keywords.get(sentiment, emotion_keywords["neutral"])`. -/
def get_emotion_keywords (sentiment : String) : List (String × List String) :=
  match emotion_keywords_table.lookup sentiment with
  | some v => v
  | none => neutral_keywords

/-! ## Summarization service (`app/services/summarization_service.py`) -/

/-- `SummarizationService.summarize_text`: the short-text guard (line 86)
runs before the `try` block, so the oracle (tokenizer + T5 generate + decode)
is only reached for inputs of length ≥ 50; an exception there is caught and
mapped to `text[:max_length] + "..."` (line 117).  `max_length` is a
non-negative int (the request schema bounds it to 10..500). -/
def summarize_text (oracle : Option (List Char)) (text : List Char)
    (max_length : Nat) : List Char :=
  if text.length < 50 then text
  else
    match oracle with
    | some summary => summary
    | none => text.take max_length ++ "...".data

/-- Python whitespace for `str.strip()` (ASCII whitespace plus the
ideographic space). -/
def is_py_space (c : Char) : Bool :=
  c ∈ ([' ', '\t', '\n', '\r', '\x0b', '\x0c', '　'] : List Char)

/-- Python `str.strip()`: drop leading and trailing whitespace. -/
def py_strip (s : List Char) : List Char :=
  ((s.dropWhile is_py_space).reverse.dropWhile is_py_space).reverse

/-- Python `str.split(",")`: split on every comma, keeping empty pieces. -/
def split_on_comma : List Char → List (List Char)
  | [] => [[]]
  | c :: rest =>
      match split_on_comma rest with
      | [] => [[c]]
      | g :: gs => if c = ',' then [] :: g :: gs else (c :: g) :: gs

/-- `SummarizationService.extract_keywords`: the oracle is the decoded model
output `keywords_text`; on success the code computes
`[kw.strip() for kw in keywords_text.split(",")][:num_keywords]`
(lines 149-150); an exception on the model path returns `[]` (line 155). -/
def extract_keywords (oracle : Option (List Char)) (num_keywords : Nat) :
    List (List Char) :=
  match oracle with
  | some keywords_text =>
      (((split_on_comma keywords_text).map py_strip).take num_keywords)
  | none => []

/-! ## A small matcher covering the `re.sub` calls of the repository

Every pattern in `StyleTransferService.transformation_rules` is a fixed-length
sequence of single-character items: a literal character, or a capturing group
wrapping a (possibly negated) character class such as `([。、])` or `([^ま])`.
Replacement templates are literal characters and backreferences `\1`, `\2`.
`re.sub` replaces non-overlapping matches left to right.  The same machinery
with literal-only patterns and empty replacement models `str.replace(x, "")`.
-/

/-- One fixed-width pattern item: a literal, or a capturing character class
(`negated = true` for `[^…]`). -/
inductive PatElem where
  | lit (c : Char)
  | grp (negated : Bool) (cs : List Char)
deriving DecidableEq, Repr

/-- One replacement-template item: a literal character or a backreference
`\n` (1-based). -/
inductive RepElem where
  | ch (c : Char)
  | ref (n : Nat)
deriving DecidableEq, Repr

/-- Whether a pattern item matches one character. -/
def pat_elem_matches : PatElem → Char → Bool
  | PatElem.lit c, d => c == d
  | PatElem.grp negated cs, d => if negated then !(cs.contains d) else cs.contains d

/-- Match a fixed-width pattern at the head of the input; on success return
the captured group characters (in group order) and the remaining input. -/
def match_at : List PatElem → List Char → Option (List Char × List Char)
  | [], s => some ([], s)
  | _ :: _, [] => none
  | e :: es, c :: s =>
      if pat_elem_matches e c then
        match match_at es s with
        | some (caps, rest) =>
            match e with
            | PatElem.lit _ => some (caps, rest)
            | PatElem.grp _ _ => some (c :: caps, rest)
        | none => none
      else none

/-- Instantiate a replacement template with the captured characters. -/
def apply_rep (caps : List Char) : List RepElem → List Char
  | [] => []
  | RepElem.ch c :: r => c :: apply_rep caps r
  | RepElem.ref n :: r => (caps.drop (n - 1)).take 1 ++ apply_rep caps r

/-- Fuelled scan of `re.sub`: at each position try the pattern; on a match
emit the instantiated replacement and continue after the match, otherwise
copy one character.  Fuel `s.length` suffices for the non-empty patterns
used here. -/
def re_sub_go (pat : List PatElem) (rep : List RepElem) : Nat → List Char → List Char
  | _, [] => []
  | 0, s => s
  | fuel + 1, c :: s =>
      match match_at pat (c :: s) with
      | some (caps, rest) => apply_rep caps rep ++ re_sub_go pat rep fuel rest
      | none => c :: re_sub_go pat rep fuel s

/-- `re.sub(pattern, replacement, s)` for the fixed-width patterns above. -/
def re_sub (pat : List PatElem) (rep : List RepElem) (s : List Char) : List Char :=
  re_sub_go pat rep s.length s

/-- Literal pattern items from a string. -/
def lit_pat (s : String) : List PatElem := s.data.map PatElem.lit

/-- Literal replacement items from a string. -/
def lit_rep (s : String) : List RepElem := s.data.map RepElem.ch

/-- `str.replace(pat, "")` used by `NLPService.generate_text` line 96. -/
def remove_all (pat : List Char) (s : List Char) : List Char :=
  re_sub (pat.map PatElem.lit) [] s

/-! ## Style transfer service (`app/services/style_transfer_service.py`) -/

/-- Keys of `self.styles` in insertion order (lines 35-64). -/
def styles_list : List String :=
  ["meiji", "taisho", "showa", "formal", "casual", "academic", "poetic"]

/-- The group `([。、])`. -/
def punct_grp : PatElem := PatElem.grp false ['。', '、']

/-- The group `([^ま])`. -/
def not_ma_grp : PatElem := PatElem.grp true ['ま']

/-- `transformation_rules["formal"]["patterns"]` (lines 68-79). -/
def formal_rules : List (List PatElem × List RepElem) :=
  [(lit_pat "だ" ++ [punct_grp], lit_rep "です" ++ [RepElem.ref 1]),
   ([not_ma_grp] ++ lit_pat "す" ++ [punct_grp],
    [RepElem.ref 1] ++ lit_rep "します" ++ [RepElem.ref 2]),
   (lit_pat "だよ", lit_rep "ですよ"),
   (lit_pat "だね", lit_rep "ですね"),
   ([not_ma_grp] ++ lit_pat "せん", [RepElem.ref 1] ++ lit_rep "しません"),
   (lit_pat "俺", lit_rep "私"),
   (lit_pat "僕", lit_rep "私"),
   ([not_ma_grp] ++ lit_pat "した" ++ [punct_grp],
    [RepElem.ref 1] ++ lit_rep "しました" ++ [RepElem.ref 2])]

/-- `transformation_rules["casual"]["patterns"]` (lines 80-88). -/
def casual_rules : List (List PatElem × List RepElem) :=
  [(lit_pat "です" ++ [punct_grp], lit_rep "だ" ++ [RepElem.ref 1]),
   (lit_pat "ます" ++ [punct_grp], lit_rep "る" ++ [RepElem.ref 1]),
   (lit_pat "ですよ", lit_rep "だよ"),
   (lit_pat "ですね", lit_rep "だね"),
   (lit_pat "しません", lit_rep "しない"),
   (lit_pat "しました", lit_rep "した")]

/-- `transformation_rules["meiji"]["patterns"]` (lines 90-101). -/
def meiji_rules : List (List PatElem × List RepElem) :=
  [(lit_pat "です", lit_rep "であります"),
   (lit_pat "ます", lit_rep "まする"),
   (lit_pat "ません", lit_rep "ませぬ"),
   (lit_pat "だ" ++ [punct_grp], lit_rep "である" ++ [RepElem.ref 1]),
   (lit_pat "私は", lit_rep "吾輩は"),
   (lit_pat "彼は", lit_rep "彼奴は"),
   (lit_pat "それは", lit_rep "其は"),
   (lit_pat "これは", lit_rep "此は")]

/-- `self.transformation_rules` keyed lookup: only formal, casual and meiji
have rule sets. -/
def transformation_rules (style : String) : Option (List (List PatElem × List RepElem)) :=
  if style = "formal" then some formal_rules
  else if style = "casual" then some casual_rules
  else if style = "meiji" then some meiji_rules
  else none

/-- `StyleTransferService._transform_with_rules` (lines 205-227): no rule set
for the style returns the input; otherwise each `(pattern, replacement)` is
applied by `re.sub` to the full output of the previous rule, in declaration
order. -/
def transform_with_rules (text : List Char) (target_style : String) : List Char :=
  match transformation_rules target_style with
  | none => text
  | some rules => rules.foldl (fun acc pr => re_sub pr.1 pr.2 acc) text

/-- `", ".join(...)` over a list of names. -/
def join_comma_space : List String → String
  | [] => ""
  | [s] => s
  | s :: rest => s ++ ", " ++ join_comma_space rest

/-- The `ValueError` message of `transform_text` line 164. -/
def unsupported_style_msg (target_style : String) : String :=
  "Unsupported style: " ++ target_style ++ ". Available styles: " ++
    join_comma_space styles_list

/-- `StyleTransferService.transform_text` (lines 147-172): validate the style
against `self.styles` (raising `ValueError` otherwise, modelled as
`Except.error`), then try the model (the oracle); any exception there falls
back to `_transform_with_rules`. -/
def transform_text (oracle : Option (List Char)) (text : List Char)
    (target_style : String) : Except String (List Char) :=
  if target_style ∈ styles_list then
    match oracle with
    | some out => Except.ok out
    | none => Except.ok (transform_with_rules text target_style)
  else Except.error (unsupported_style_msg target_style)

/-- HTTP outcome of the style-transfer endpoint. -/
inductive HttpResult where
  | ok (transformed_text : List Char)
  | fail (status : Nat) (detail : String)
deriving DecidableEq, Repr

/-- Router `transfer_style` (`app/routers/style_transfer.py` lines 40-51):
a `ValueError` from the service becomes an HTTP 400 whose detail is
`str(e)`. -/
def transfer_style (oracle : Option (List Char)) (text : List Char)
    (target_style : String) : HttpResult :=
  match transform_text oracle text target_style with
  | Except.ok t => HttpResult.ok t
  | Except.error msg => HttpResult.fail 400 msg

/-! ## Text-generation service (`app/services/nlp_service.py`) -/

/-- The output cleaning of `generate_text` line 96:
`decoded.replace('</s>', '').replace('<unk>', '')`. -/
def clean_generated_output (decoded : List Char) : List Char :=
  remove_all "<unk>".data (remove_all "</s>".data decoded)

/-- `NLPService.generate_text`: the oracle is the decoded model output; on
success it is cleaned, and any exception on the model path (oracle `none`)
is caught and the original input `text` returned (lines 100-103). -/
def generate_text (oracle : Option (List Char)) (text : List Char) : List Char :=
  match oracle with
  | some decoded => clean_generated_output decoded
  | none => text

/-! ## Cliche service (`app/services/cliche_service.py`) -/

/-- `ClicheService.__init__`: the fixed phrase list. -/
def cliches : List (List Char) :=
  ["信じられているから走るのだ。少し考えてみよう。".data,
   "私はなんにも知りません。しかし、少し考えてみましょう。".data,
   "人間は、しばしば希望にあざむかれるが、少し考えてみよう。".data,
   "私は、ひとの恋愛談を聞く事は、あまり好きでない。しかし、少し考えてみよう。".data,
   "あなたはさっきから、乙姫の居所を前方にばかり求めていらっしゃる。しかし、少し考えてみよう。".data,
   "恋愛は、チャンスではないと思う。少し考えてみよう。".data,
   "君のような秀才にはわかるまいが、少し考えてみよう。".data,
   "弱虫は、幸福をさえおそれるものです。しかし、少し考えてみましょう。".data,
   "信実とは、決して空虚な妄想ではなかった。少し考えてみよう。".data,
   "理窟はないんだ。しかし、少し考えてみよう。".data,
   "不良とは、優しさの事ではないかしら。しかし、少し考えてみよう。".data,
   "僕は今まで、説教されて、改心したことが、まだいちどもない。しかし、少し考えてみよう。".data,
   "怒る時に怒らなければ、人間の甲斐がありません。少し考えてみましょう。".data,
   "笑われて、笑われて、つよくなる。少し考えてみよう。".data]

/-- The candidate pool of `get_random_cliche` (lines 46-52): Python
`if exclude:` is falsy for `None` and for the empty list; when truthy the
pool is the phrases not in `exclude`, replaced by the full list if that
filter is empty. -/
def available_cliches (exclude : Option (List (List Char))) : List (List Char) :=
  match exclude with
  | some ex =>
      if ex ≠ [] then
        let avail := cliches.filter (fun c => !ex.contains c)
        if avail = [] then cliches else avail
      else cliches
  | none => cliches

/-- `ClicheService.get_random_cliche`: `random.choice(seq)` picks an index
below `seq`'s length (raising `IndexError`, i.e. `none`, on an empty
sequence); the random draw is modelled by an arbitrary `choice : Nat` taken
modulo the pool size. -/
def get_random_cliche (choice : Nat) (exclude : Option (List (List Char))) :
    Option (List Char) :=
  let avail := available_cliches exclude
  avail.get? (choice % avail.length)

/-! ## Helper lemmas -/

/-- `py_strip` is drop-left then drop-right. -/
lemma py_strip_eq_rdropWhile (s : List Char) :
    py_strip s = (s.dropWhile is_py_space).rdropWhile is_py_space := rfl

lemma dropWhile_cons_self (p : Char → Bool) (a : Char) (t : List Char)
    (h : (a :: t).dropWhile p = a :: t) : p a = false := by
  by_contra hp
  have hpa : p a = true := by
    cases hqa : p a
    · exact absurd hqa hp
    · rfl
  rw [List.dropWhile_cons, if_pos hpa] at h
  have := (List.dropWhile_suffix (l := t) p).length_le
  rw [h] at this
  simp at this

/-- Stripping is idempotent. -/
lemma py_strip_idem (s : List Char) : py_strip (py_strip s) = py_strip s := by
  rw [py_strip_eq_rdropWhile, py_strip_eq_rdropWhile]
  have hdr : (s.dropWhile is_py_space).dropWhile is_py_space = s.dropWhile is_py_space :=
    List.dropWhile_idempotent is_py_space s
  have hdu : ((s.dropWhile is_py_space).rdropWhile is_py_space).dropWhile is_py_space =
      (s.dropWhile is_py_space).rdropWhile is_py_space := by
    rcases hu : (s.dropWhile is_py_space).rdropWhile is_py_space with _ | ⟨a, t⟩
    · rfl
    · obtain ⟨tl, htl⟩ := List.rdropWhile_prefix is_py_space (s.dropWhile is_py_space)
      rw [hu] at htl
    -- the stripped list is `a :: t ++ tl`, whose head `a` is not whitespace
      have hra : s.dropWhile is_py_space = a :: (t ++ tl) := by
        rw [← htl]; simp
      have hna : is_py_space a = false := by
        apply dropWhile_cons_self is_py_space a (t ++ tl)
        rw [← hra]; exact hdr
      rw [List.dropWhile_cons, hna]
      simp
  rw [hdu, List.rdropWhile_idempotent]

/-! ## Claim theorems -/

/-- C2 (counterexample): the oracle output `"a, ,b,c,d"` is a comma-delimited
sequence of 5 items, yet `extract_keywords` keeps the whitespace-only item as
the empty string, so not every returned keyword is non-empty. -/
theorem extract_keywords_empty_keyword :
    5 ≤ (split_on_comma "a, ,b,c,d".data).length ∧
    [] ∈ extract_keywords (some "a, ,b,c,d".data) 5 := by decide

/-- C2 (amended): for every oracle output splitting into at least 5 comma
items, `extract_keywords` with the default count returns exactly 5 strings,
each a fixed point of stripping (no surrounding whitespace), though possibly
empty. -/
theorem extract_keywords_count_and_stripped (keywords_text : List Char)
    (h : 5 ≤ (split_on_comma keywords_text).length) :
    (extract_keywords (some keywords_text) 5).length = 5 ∧
    ∀ kw ∈ extract_keywords (some keywords_text) 5, py_strip kw = kw := by
  constructor
  · simp only [extract_keywords, List.length_take, List.length_map]
    omega
  · intro kw hkw
    simp only [extract_keywords] at hkw
    have hmem : kw ∈ (split_on_comma keywords_text).map py_strip :=
      List.mem_of_mem_take hkw
    obtain ⟨x, -, rfl⟩ := List.mem_map.mp hmem
    exact py_strip_idem x

/-- C2 (witness). -/
theorem extract_keywords_count_and_stripped_witness :
    (extract_keywords (some "a,b,c,d,e,f".data) 5).length = 5 ∧
    ∀ kw ∈ extract_keywords (some "a,b,c,d,e,f".data) 5, py_strip kw = kw :=
  extract_keywords_count_and_stripped "a,b,c,d,e,f".data (by decide)

/-- C3: inputs shorter than 50 characters are returned unchanged by
`summarize_text`, for every oracle (in particular the model path is
irrelevant) and every `max_length`. -/
theorem summarize_text_short_identity (oracle : Option (List Char))
    (text : List Char) (max_length : Nat) (h : text.length < 50) :
    summarize_text oracle text max_length = text := by
  unfold summarize_text
  rw [if_pos h]

/-- C3 (witness). -/
theorem summarize_text_short_identity_witness :
    summarize_text none "短いテキスト".data 100 = "短いテキスト".data :=
  summarize_text_short_identity none "短いテキスト".data 100 (by decide)

/-- C6: for inputs of length at least 50, a failed oracle makes
`summarize_text` return the first `max_length` characters followed by
`"..."`; the exception is swallowed, never propagated. -/
theorem summarize_text_failure_truncates (text : List Char) (max_length : Nat)
    (h : 50 ≤ text.length) :
    summarize_text none text max_length = text.take max_length ++ "...".data := by
  unfold summarize_text
  rw [if_neg (Nat.not_lt.mpr h)]

/-- C6 (witness). -/
theorem summarize_text_failure_truncates_witness :
    summarize_text none (List.replicate 50 'あ') 10 =
      (List.replicate 50 'あ').take 10 ++ "...".data :=
  summarize_text_failure_truncates (List.replicate 50 'あ') 10 (by simp)

/-- C7: when any step of the model path fails, `analyze_sentiment` returns
exactly the hardcoded neutral result (label neutral, score 1, details
positive 0 / neutral 1 / negative 0) and does not raise. -/
theorem analyze_sentiment_failure_neutral :
    analyze_sentiment none =
      ⟨"neutral", 1, [("positive", 0), ("neutral", 1), ("negative", 0)]⟩ := rfl

/-- C8: when any step of the model path fails, `generate_text` returns the
original input text unchanged and does not raise. -/
theorem generate_text_failure_identity (text : List Char) :
    generate_text none text = text := rfl

lemma cliches_ne_nil : cliches ≠ [] := by simp [cliches]

lemma available_cliches_ne_nil (exclude : Option (List (List Char))) :
    available_cliches exclude ≠ [] := by
  cases exclude with
  | none => exact cliches_ne_nil
  | some ex =>
      simp only [available_cliches]
      split
      · split
        · exact cliches_ne_nil
        · assumption
      · exact cliches_ne_nil

lemma available_cliches_subset (exclude : Option (List (List Char))) :
    ∀ c ∈ available_cliches exclude, c ∈ cliches := by
  intro c hc
  cases exclude with
  | none => exact hc
  | some ex =>
      simp only [available_cliches] at hc
      split at hc
      · split at hc
        · exact hc
        · exact (List.mem_filter.mp hc).1
      · exact hc

/-- C9: for every exclusion argument (including excluding the full phrase
set) and every random draw, `get_random_cliche` succeeds (never raises) and
returns a member of the fixed phrase set: excluding everything falls back to
the full list. -/
theorem get_random_cliche_total (choice : Nat) (exclude : Option (List (List Char))) :
    ∃ c, get_random_cliche choice exclude = some c ∧ c ∈ cliches := by
  have hne := available_cliches_ne_nil exclude
  have hlt : choice % (available_cliches exclude).length <
      (available_cliches exclude).length :=
    Nat.mod_lt _ (List.length_pos.mpr hne)
  refine ⟨(available_cliches exclude).get ⟨_, hlt⟩, ?_, ?_⟩
  · simp only [get_random_cliche]
    exact List.get?_eq_get hlt
  · exact available_cliches_subset exclude _ (List.get_mem _ _ _)

/-- C10: `get_emotion_keywords` returns the neutral category's mapping (a
non-empty one) for every sentiment label outside positive/negative/neutral,
and each known label's own fixed mapping otherwise. -/
theorem get_emotion_keywords_total (s : String)
    (h : s ∉ (["positive", "negative", "neutral"] : List String)) :
    get_emotion_keywords s = neutral_keywords ∧
    neutral_keywords ≠ [] ∧
    get_emotion_keywords "positive" = positive_keywords ∧
    get_emotion_keywords "negative" = negative_keywords ∧
    get_emotion_keywords "neutral" = neutral_keywords := by
  have h1 : (s == "positive") = false := by
    simp only [beq_eq_false_iff_ne]; intro hh; exact h (by simp [hh])
  have h2 : (s == "negative") = false := by
    simp only [beq_eq_false_iff_ne]; intro hh; exact h (by simp [hh])
  have h3 : (s == "neutral") = false := by
    simp only [beq_eq_false_iff_ne]; intro hh; exact h (by simp [hh])
  refine ⟨?_, by simp [neutral_keywords], rfl, rfl, rfl⟩
  simp [get_emotion_keywords, emotion_keywords_table, List.lookup, h1, h2, h3]

/-- C10 (witness). -/
theorem get_emotion_keywords_total_witness :
    get_emotion_keywords "excited" = neutral_keywords ∧
    neutral_keywords ≠ [] ∧
    get_emotion_keywords "positive" = positive_keywords ∧
    get_emotion_keywords "negative" = negative_keywords ∧
    get_emotion_keywords "neutral" = neutral_keywords :=
  get_emotion_keywords_total "excited" (by decide)

/-- C4: for every style name outside the catalog, `transform_text` fails with
the `ValueError` message, for every oracle (no model call or fallback can
change the outcome); the router maps it to HTTP 400 with that message as
detail, and the message contains every valid style name. -/
theorem transform_text_invalid_style (target_style : String)
    (h : target_style ∉ styles_list) (oracle : Option (List Char)) (text : List Char) :
    transform_text oracle text target_style =
      Except.error (unsupported_style_msg target_style) ∧
    transfer_style oracle text target_style =
      HttpResult.fail 400 (unsupported_style_msg target_style) ∧
    ∀ s ∈ styles_list, s.data <:+: (unsupported_style_msg target_style).data := by
  have h1 : transform_text oracle text target_style =
      Except.error (unsupported_style_msg target_style) := by
    unfold transform_text
    rw [if_neg h]
  refine ⟨h1, ?_, ?_⟩
  · unfold transfer_style
    rw [h1]
  · intro s hs
    have hsub : s.data <:+: (join_comma_space styles_list).data := by
      fin_cases hs <;> decide
    have htail : (join_comma_space styles_list).data <:+
        (unsupported_style_msg target_style).data := by
      unfold unsupported_style_msg
      rw [String.data_append]
      exact List.suffix_append _ _
    exact hsub.trans htail.isInfix

/-- C4 (witness). -/
theorem transform_text_invalid_style_witness :
    transfer_style none "文章".data "gothic" =
      HttpResult.fail 400 (unsupported_style_msg "gothic") :=
  (transform_text_invalid_style "gothic" (by decide) none "文章".data).2.1

/-- C5: for every valid style, when the model path fails `transform_text`
returns (never raises) the rule-based fallback: the style's substitution
rules folded over the text in declaration order, each rule rewriting the
full output of the previous one; a style without a rule set yields the input
unchanged. -/
theorem transform_text_fallback_rules (target_style : String)
    (h : target_style ∈ styles_list) (text : List Char) :
    (transform_text none text target_style =
      Except.ok (match transformation_rules target_style with
        | none => text
        | some rules => rules.foldl (fun acc pr => re_sub pr.1 pr.2 acc) text)) ∧
    (transformation_rules target_style = none →
      transform_text none text target_style = Except.ok text) := by
  have h1 : transform_text none text target_style =
      Except.ok (transform_with_rules text target_style) := by
    unfold transform_text
    rw [if_pos h]
  constructor
  · rw [h1]; rfl
  · intro hn
    rw [h1]
    unfold transform_with_rules
    rw [hn]

/-- C5 (witness). -/
theorem transform_text_fallback_rules_witness :
    transform_text none "退屈だ。".data "formal" =
      Except.ok (match transformation_rules "formal" with
        | none => "退屈だ。".data
        | some rules => rules.foldl (fun acc pr => re_sub pr.1 pr.2 acc) "退屈だ。".data) :=
  (transform_text_fallback_rules "formal" (by decide) "退屈だ。".data).1

lemma get_dominant_sentiment_eq (n u p : ℚ) :
    get_dominant_sentiment (sentiment_scores n u p) =
      some (if p > (if u > n then ("neutral", u) else ("negative", n)).2
            then ("positive", p)
            else if u > n then ("neutral", u) else ("negative", n)) := rfl

/-- C1: on the success path, `_get_dominant_sentiment` (and hence the
`sentiment` and `score` fields of `analyze_sentiment`) returns the label
with the maximal score; on an exact tie the first tied label in the fixed
enumeration order negative, neutral, positive wins. -/
theorem get_dominant_sentiment_first_argmax (n u p : ℚ) :
    ∃ l s, get_dominant_sentiment (sentiment_scores n u p) = some (l, s) ∧
      s = max n (max u p) ∧
      l = (if s = n then "negative" else if s = u then "neutral" else "positive") ∧
      analyze_sentiment (some (n, u, p)) = ⟨l, s, sentiment_scores n u p⟩ := by
  rcases le_or_lt u n with h1 | h1
  · rcases le_or_lt p n with h2 | h2
    · refine ⟨"negative", n, ?_, ?_, ?_, ?_⟩
      · rw [get_dominant_sentiment_eq]
        rw [if_neg (not_lt.mpr h1)]
        simp only
        rw [if_neg (not_lt.mpr h2)]
      · rw [max_eq_left (max_le h1 h2)]
      · rw [if_pos rfl]
      · simp only [analyze_sentiment, get_dominant_sentiment_eq]
        rw [if_neg (not_lt.mpr h1)]
        simp only
        rw [if_neg (not_lt.mpr h2)]
    · refine ⟨"positive", p, ?_, ?_, ?_, ?_⟩
      · rw [get_dominant_sentiment_eq, if_neg (not_lt.mpr h1)]
        simp only
        rw [if_pos h2]
      · rw [max_eq_right (le_of_lt (lt_of_le_of_lt h1 h2)), max_eq_right (le_of_lt h2)]
      · rw [if_neg (ne_of_gt h2), if_neg (ne_of_gt (lt_of_le_of_lt h1 h2))]
      · simp only [analyze_sentiment, get_dominant_sentiment_eq]
        rw [if_neg (not_lt.mpr h1)]
        simp only
        rw [if_pos h2]
  · rcases le_or_lt p u with h2 | h2
    · refine ⟨"neutral", u, ?_, ?_, ?_, ?_⟩
      · rw [get_dominant_sentiment_eq, if_pos h1]
        simp only
        rw [if_neg (not_lt.mpr h2)]
      · rw [max_eq_left h2, max_eq_right (le_of_lt h1)]
      · rw [if_neg (ne_of_gt h1), if_pos rfl]
      · simp only [analyze_sentiment, get_dominant_sentiment_eq]
        rw [if_pos h1]
        simp only
        rw [if_neg (not_lt.mpr h2)]
    · refine ⟨"positive", p, ?_, ?_, ?_, ?_⟩
      · rw [get_dominant_sentiment_eq, if_pos h1]
        simp only
        rw [if_pos h2]
      · rw [max_eq_right (le_of_lt h2), max_eq_right (le_of_lt (lt_trans h1 h2))]
      · rw [if_neg (ne_of_gt (lt_trans h1 h2)), if_neg (ne_of_gt h2)]
      · simp only [analyze_sentiment, get_dominant_sentiment_eq]
        rw [if_pos h1]
        simp only
        rw [if_pos h2]
